import Mathlib

/-!
# Verification of `src/parpar/gf16/threadqueue.h`

A shallow embedding of the thread-queue core of par2cmdline-turbo:

* `ThreadMessageQueue<T>` (the spec's BlockingQueue): an unbounded FIFO
  protected by one mutex and one condition variable, move-only via a
  `skipDestructor` flag.
* `MessageThread` (the spec's WorkerThread): owns a `ThreadMessageQueue<void*>`,
  one OS thread handle and the `threadActive` / `threadCreated` flags, and runs
  `thread_func`, a consumer loop that dispatches items to a callback until it
  pops the `NULL` sentinel.
* `ThreadNotifyQueue` (the spec's LoopNotifyBridge): an internal queue drained
  by `notified` with `trypop` on the event-loop thread.

Modelling conventions:

* The payload type `void*` with the reserved `NULL` sentinel is modelled as
  `Option α`: `none` is `NULL`, `some x` a non-sentinel application item.
* Every operation of the C++ code acquires the queue's mutex, mutates, and
  releases; in the embedding each such critical section is a single function
  application on the state, which is exactly the atomicity the lock provides.
  Condition-variable signals performed inside a critical section are counted
  and returned alongside the new state.
* `pop()` blocks on an empty queue; in the sequential model a blocked `pop`
  is the `none` case of an `Option` result.
* Mutex, condition-variable and thread identities are modelled as `Nat` tags
  so that move semantics (transfer of ownership) is observable.
-/

/-- Model of `ThreadMessageQueue<T>` (threadqueue.h:40-142): the FIFO contents
`q`, the identities of the owned mutex and condition variable, and the
`skipDestructor` flag set on a moved-from instance. -/
structure ThreadMessageQueue (T : Type) where
  q : List T
  mutexId : Nat
  condId : Nat
  skipDestructor : Bool
  deriving Repr, DecidableEq

namespace ThreadMessageQueue

/-- `ThreadMessageQueue()` (threadqueue.h:67-71): fresh mutex and condition
variable (identified by the given tags), empty queue, `skipDestructor = false`. -/
def mk_ (mId cId : Nat) : ThreadMessageQueue T :=
  { q := [], mutexId := mId, condId := cId, skipDestructor := false }

/-- `~ThreadMessageQueue()` (threadqueue.h:72-76): the destructor destroys the
mutex and condition variable unless `skipDestructor` is set. `true` means the
resources are released. -/
def destructorDestroys (s : ThreadMessageQueue T) : Bool :=
  !s.skipDestructor

/-- `ThreadMessageQueue::move` (threadqueue.h:51-63), the shared body of the
move constructor and move assignment `this->move(other)`. It overwrites every
field of `*this` from `other` (queue contents and mutex/cond identity), clears
`skipDestructor` on `*this` and sets it on `other`. `std::move(other.q)`
leaves the source queue empty. Returns (new `*this`, new `other`). -/
def move (_self other : ThreadMessageQueue T) :
    ThreadMessageQueue T × ThreadMessageQueue T :=
  ({ q := other.q, mutexId := other.mutexId, condId := other.condId,
     skipDestructor := false },
   { other with q := [], skipDestructor := true })

/-- `push` (threadqueue.h:85-90): lock, append `item` at the tail, signal the
condition variable once, unlock. The second component counts condvar signals
issued by the call. -/
def push (s : ThreadMessageQueue T) (item : T) :
    ThreadMessageQueue T × Nat :=
  ({ s with q := s.q ++ [item] }, 1)

/-- `push_multi` (threadqueue.h:91-99): lock, append every element of `list`
in iteration order (the loop body is the raw `std::queue::push`, which does
not signal), signal the condition variable once, unlock. The lock is held
across the whole loop, so the appends form one critical section: a single
transition of the model. The second component counts condvar signals. -/
def push_multi (s : ThreadMessageQueue T) (list : List T) :
    ThreadMessageQueue T × Nat :=
  ({ s with q := list.foldl (fun acc x => acc ++ [x]) s.q }, 1)

/-- `pop` (threadqueue.h:100-116): wait on the condition variable until the
queue is non-empty, then remove and return the head. A call that never wakes
up (empty queue and nothing pushed afterwards in the modelled execution) is
the `none` case. -/
def pop (s : ThreadMessageQueue T) : Option (T × ThreadMessageQueue T) :=
  match s.q with
  | [] => none
  | x :: rest => some (x, { s with q := rest })

/-- `trypop` (threadqueue.h:118-128): lock; if the queue is non-empty, remove
the head and return it through the out-parameter (modelled as `some`); else
return `false` (modelled as `none`) leaving the queue untouched; unlock.
Total — it never waits on the condition variable. -/
def trypop (s : ThreadMessageQueue T) : Option T × ThreadMessageQueue T :=
  match s.q with
  | [] => (none, s)
  | x :: rest => (some x, { s with q := rest })

/-- `size` (threadqueue.h:130-135): lock-protected snapshot of the number of
queued elements. -/
def size (s : ThreadMessageQueue T) : Nat :=
  s.q.length

/-- `empty` (threadqueue.h:136-141): lock-protected emptiness snapshot. -/
def empty (s : ThreadMessageQueue T) : Bool :=
  s.q.isEmpty

theorem foldl_push_eq_append (list : List T) :
    ∀ acc : List T, list.foldl (fun a x => a ++ [x]) acc = acc ++ list := by
  induction list with
  | nil => intro acc; simp
  | cons x rest ih =>
      intro acc
      simp [List.foldl, ih (acc ++ [x])]

theorem push_multi_q (s : ThreadMessageQueue T) (list : List T) :
    (s.push_multi list).1 = { s with q := s.q ++ list } := by
  simp [push_multi, foldl_push_eq_append]

end ThreadMessageQueue

/-- C2: `trypop` never blocks (it is a total function of the queue state): on
an empty queue it reports absent and leaves the queue unchanged; on a
non-empty queue it removes exactly the head, returns it as present, and
leaves the remaining elements in order. -/
theorem trypop_never_blocks {T : Type} (s : ThreadMessageQueue T) :
    (s.q = [] → s.trypop = (none, s)) ∧
    (∀ x rest, s.q = x :: rest →
      s.trypop = (some x, { s with q := rest })) := by
  constructor
  · intro h
    simp [ThreadMessageQueue.trypop, h]
  · intro x rest h
    simp [ThreadMessageQueue.trypop, h]

/-- Witness for C2: `trypop` on the concrete queue `[10, 20]` returns the head
`10` and leaves `[20]`; on the empty queue it returns absent and changes
nothing. -/
theorem trypop_never_blocks_witness :
    ThreadMessageQueue.trypop ⟨[10, 20], 0, 1, false⟩ =
      (some 10, ({ q := [20], mutexId := 0, condId := 1,
                   skipDestructor := false } : ThreadMessageQueue Nat)) ∧
    ThreadMessageQueue.trypop (⟨[], 0, 1, false⟩ : ThreadMessageQueue Nat) =
      (none, ⟨[], 0, 1, false⟩) :=
  ⟨(trypop_never_blocks ⟨[10, 20], 0, 1, false⟩).2 10 [20] rfl,
   (trypop_never_blocks (⟨[], 0, 1, false⟩ : ThreadMessageQueue Nat)).1 rfl⟩

/-- C7: `push_multi` appends the whole sequence at the tail in iteration
order, changing nothing else of the queue state, within one critical section
(a single transition of the model, since the lock is held across all
appends), and issues exactly one condition-variable signal per call —
independent of the number of items — where pushing the items one by one with
`push` would signal once per item. -/
theorem push_multi_appends_atomically {T : Type}
    (s : ThreadMessageQueue T) (list : List T) :
    (s.push_multi list).1 = { s with q := s.q ++ list } ∧
    (s.push_multi list).2 = 1 ∧
    (list.foldl (fun acc x => ((acc.1.push x).1, acc.2 + (acc.1.push x).2))
        (s, 0)).2 = list.length := by
  refine ⟨ThreadMessageQueue.push_multi_q s list, rfl, ?_⟩
  · suffices h : ∀ (l : List T) (t : ThreadMessageQueue T) (n : Nat),
        (l.foldl (fun acc x => ((acc.1.push x).1, acc.2 + (acc.1.push x).2))
          (t, n)).2 = n + l.length by
      simpa using h list s 0
    intro l
    induction l with
    | nil => intro t n; simp
    | cons x rest ih =>
        intro t n
        simp only [List.foldl]
        rw [ih]
        simp [ThreadMessageQueue.push]
        omega

/-- OS-thread lifecycle events issued by `MessageThread` operations:
`thread_join(thread)` and `thread_create(thread, ..., this)`. -/
inductive ThreadEvent where
  | tjoin : ThreadEvent
  | tcreate : ThreadEvent
  deriving Repr, DecidableEq

/-- The two externally visible actions of `~MessageThread()`
(threadqueue.h:313-318): `q.push(NULL)` and `thread_join(thread)`. -/
inductive DtorAction where
  | pushSentinel : DtorAction
  | joinThread : DtorAction
  deriving Repr, DecidableEq

/-- Model of `MessageThread` (threadqueue.h:204-359), the spec's WorkerThread.
Items are `void*` with `NULL` as shutdown sentinel, modelled as `Option α`
(`none` = `NULL`). `threadId` models the identity of the `thread_t` handle,
`cb` the identity of the `thread_cb_t` callback. -/
structure MessageThread (α : Type) where
  q : ThreadMessageQueue (Option α)
  threadId : Nat
  threadActive : Bool
  threadCreated : Bool
  cb : Nat
  lowPrio : Bool
  deriving Repr, DecidableEq

namespace MessageThread

/-- `MessageThread(thread_cb_t callback)` (threadqueue.h:304-309): default
queue, no thread yet, both flags false, normal priority. -/
def init (α : Type) (callback : Nat) : MessageThread α :=
  { q := ThreadMessageQueue.mk_ 0 0, threadId := 0,
    threadActive := false, threadCreated := false,
    cb := callback, lowPrio := false }

/-- `MessageThread::start` (threadqueue.h:328-335): no-op when
`threadActive`; otherwise set `threadActive`, join the previous OS thread if
one was created (it was signalled to stop by a prior `end()`), set
`threadCreated`, and create a fresh OS thread (`newId` is its handle).
The second component lists the join/create events in program order. -/
def start (m : MessageThread α) (newId : Nat) :
    MessageThread α × List ThreadEvent :=
  if m.threadActive then (m, [])
  else
    ({ m with threadActive := true, threadCreated := true, threadId := newId },
     (if m.threadCreated then [ThreadEvent.tjoin] else []) ++
       [ThreadEvent.tcreate])

/-- `MessageThread::send` (threadqueue.h:337-340): `start()` then push the
(non-`NULL`) item. -/
def send (m : MessageThread α) (newId : Nat) (item : α) :
    MessageThread α × List ThreadEvent :=
  let r := m.start newId
  ({ r.1 with q := (r.1.q.push (some item)).1 }, r.2)

/-- `MessageThread::send_multi` (threadqueue.h:341-345): `start()` then
`push_multi` of the (non-`NULL`) items. -/
def send_multi (m : MessageThread α) (newId : Nat) (items : List α) :
    MessageThread α × List ThreadEvent :=
  let r := m.start newId
  ({ r.1 with q := (r.1.q.push_multi (items.map some)).1 }, r.2)

/-- `MessageThread::end` (threadqueue.h:346-351): if `threadActive`, push the
`NULL` sentinel and clear `threadActive`; otherwise do nothing. It does not
join the thread. (`end` is a reserved word, hence the underscore.) -/
def end_ (m : MessageThread α) : MessageThread α :=
  if m.threadActive then
    { m with q := (m.q.push none).1, threadActive := false }
  else m

/-- `MessageThread::size` (threadqueue.h:353-355). -/
def size (m : MessageThread α) : Nat :=
  m.q.size

/-- `MessageThread::empty` (threadqueue.h:356-358). -/
def empty (m : MessageThread α) : Bool :=
  m.q.empty

/-- `MessageThread::thread_func` (threadqueue.h:211-220), the consumer loop
run by the worker OS thread over the queue contents: repeatedly `pop()`; exit
the loop when the popped item is `NULL` (`none`); otherwise invoke `cb` with
the item and continue. Returns `some (delivered, remaining)` — the callback
invocations in order and the queue contents left after the loop exits — or
`none` when the loop reaches an empty queue and `pop()` blocks forever (no
sentinel in the modelled contents). -/
def thread_func : List (Option α) → Option (List α × List (Option α))
  | [] => none
  | none :: rest => some ([], rest)
  | some x :: rest =>
      (thread_func rest).map (fun p => (x :: p.1, p.2))

/-- Actions of `~MessageThread()` (threadqueue.h:313-318) in program order:
push the `NULL` sentinel if `threadActive`, then `thread_join` if
`threadCreated`. -/
def destructorActions (m : MessageThread α) : List DtorAction :=
  (if m.threadActive then [DtorAction.pushSentinel] else []) ++
    (if m.threadCreated then [DtorAction.joinThread] else [])

/-- `MessageThread::move` (threadqueue.h:281-294), the shared body of the
move constructor and move assignment `this->move(other)`: move the queue
(which marks `other.q` moved-from), copy the thread handle and both flags and
the callback, then clear `other`'s flags so its destructor neither pushes a
sentinel nor joins. `lowPrio` is not touched by `move` (the destination keeps
its own value). Returns (new `*this`, new `other`). -/
def move (self other : MessageThread α) :
    MessageThread α × MessageThread α :=
  ({ q := (ThreadMessageQueue.move self.q other.q).1,
     threadId := other.threadId,
     threadActive := other.threadActive,
     threadCreated := other.threadCreated,
     cb := other.cb,
     lowPrio := self.lowPrio },
   { other with
      q := (ThreadMessageQueue.move self.q other.q).2,
      threadActive := false, threadCreated := false })

end MessageThread

/-- The public mutating operations of `MessageThread` usable by client code
between construction and destruction: `start`, `send`, `send_multi`, `end`. -/
inductive MTOp (α : Type) where
  | startOp : MTOp α
  | sendOp : α → MTOp α
  | sendMultiOp : List α → MTOp α
  | stopOp : MTOp α
  deriving Repr, DecidableEq

namespace MessageThread

/-- Run one public operation; `fresh` is the handle of the OS thread spawned
by `thread_create` if the operation performs one. Returns the new state and
the OS-thread lifecycle events the operation issued, in program order. -/
def applyOp (m : MessageThread α) (fresh : Nat) :
    MTOp α → MessageThread α × List ThreadEvent
  | MTOp.startOp => m.start fresh
  | MTOp.sendOp x => m.send fresh x
  | MTOp.sendMultiOp xs => m.send_multi fresh xs
  | MTOp.stopOp => (m.end_, [])

/-- Run a sequence of public operations, threading the state and a supply of
fresh thread handles, collecting all OS-thread lifecycle events in order. -/
def runOps (m : MessageThread α) (fresh : Nat) :
    List (MTOp α) → MessageThread α × List ThreadEvent
  | [] => (m, [])
  | op :: ops =>
      let r := m.applyOp fresh op
      let r2 := r.1.runOps (fresh + 1) ops
      (r2.1, r.2 ++ r2.2)

end MessageThread

/-- Checks an OS-thread event trace against the single-thread discipline:
`alive` is whether an unjoined OS thread currently exists; a `tcreate` is
legal only when no unjoined thread exists, a `tjoin` only when one does.
`okEvents alive evs = true` means every create in `evs` happens after the
previous thread was joined, so at most one unjoined OS thread ever exists. -/
def okEvents : Bool → List ThreadEvent → Bool
  | _, [] => true
  | alive, ThreadEvent.tcreate :: rest => !alive && okEvents true rest
  | alive, ThreadEvent.tjoin :: rest => alive && okEvents false rest

/-- Whether an unjoined OS thread exists after the trace, given whether one
existed before it. -/
def aliveAfter : Bool → List ThreadEvent → Bool
  | a, [] => a
  | _, ThreadEvent.tcreate :: rest => aliveAfter true rest
  | _, ThreadEvent.tjoin :: rest => aliveAfter false rest

theorem okEvents_append (a : Bool) (l1 l2 : List ThreadEvent) :
    okEvents a (l1 ++ l2) =
      (okEvents a l1 && okEvents (aliveAfter a l1) l2) := by
  induction l1 generalizing a with
  | nil => simp [okEvents, aliveAfter]
  | cons e rest ih =>
      cases e with
      | tjoin => simp [okEvents, aliveAfter, ih, Bool.and_assoc]
      | tcreate => simp [okEvents, aliveAfter, ih, Bool.and_assoc]

/-- Every single public operation respects the thread discipline: starting
from a state whose `threadCreated` flag tells whether an unjoined OS thread
exists, the events it issues are legal and leave `threadCreated` again
tracking the unjoined thread. -/
theorem applyOp_okEvents {α : Type} (m : MessageThread α) (fresh : Nat)
    (op : MTOp α) :
    okEvents m.threadCreated (m.applyOp fresh op).2 = true ∧
    aliveAfter m.threadCreated (m.applyOp fresh op).2 =
      (m.applyOp fresh op).1.threadCreated := by
  cases op with
  | startOp =>
      by_cases h : m.threadActive = true
      · simp [MessageThread.applyOp, MessageThread.start, h, okEvents,
          aliveAfter]
      · simp only [Bool.not_eq_true] at h
        cases hc : m.threadCreated <;>
          simp [MessageThread.applyOp, MessageThread.start, h, hc, okEvents,
            aliveAfter]
  | sendOp x =>
      by_cases h : m.threadActive = true
      · simp [MessageThread.applyOp, MessageThread.send, MessageThread.start,
          h, okEvents, aliveAfter]
      · simp only [Bool.not_eq_true] at h
        cases hc : m.threadCreated <;>
          simp [MessageThread.applyOp, MessageThread.send,
            MessageThread.start, h, hc, okEvents, aliveAfter]
  | sendMultiOp xs =>
      by_cases h : m.threadActive = true
      · simp [MessageThread.applyOp, MessageThread.send_multi,
          MessageThread.start, h, okEvents, aliveAfter]
      · simp only [Bool.not_eq_true] at h
        cases hc : m.threadCreated <;>
          simp [MessageThread.applyOp, MessageThread.send_multi,
            MessageThread.start, h, hc, okEvents, aliveAfter]
  | stopOp =>
      by_cases h : m.threadActive = true <;>
        simp [MessageThread.applyOp, MessageThread.end_, h, okEvents,
          aliveAfter]

theorem aliveAfter_append (a : Bool) (l1 l2 : List ThreadEvent) :
    aliveAfter a (l1 ++ l2) = aliveAfter (aliveAfter a l1) l2 := by
  induction l1 generalizing a with
  | nil => simp [aliveAfter]
  | cons e rest ih =>
      cases e with
      | tjoin => simp [aliveAfter, ih]
      | tcreate => simp [aliveAfter, ih]

/-- Any sequence of public operations respects the thread discipline. -/
theorem runOps_okEvents {α : Type} (ops : List (MTOp α)) :
    ∀ (m : MessageThread α) (fresh : Nat),
      okEvents m.threadCreated (m.runOps fresh ops).2 = true ∧
      aliveAfter m.threadCreated (m.runOps fresh ops).2 =
        (m.runOps fresh ops).1.threadCreated := by
  induction ops with
  | nil =>
      intro m fresh
      simp [MessageThread.runOps, okEvents, aliveAfter]
  | cons op ops ih =>
      intro m fresh
      have h1 := applyOp_okEvents m fresh op
      have h2 := ih (m.applyOp fresh op).1 (fresh + 1)
      simp only [MessageThread.runOps]
      constructor
      · rw [okEvents_append, h1.1, h1.2, h2.1]
        simp
      · rw [aliveAfter_append, h1.2, h2.2]

theorem thread_func_first_sentinel {α : Type} (items : List α)
    (rest : List (Option α)) :
    MessageThread.thread_func (items.map some ++ none :: rest) =
      some (items, rest) := by
  induction items with
  | nil => simp [MessageThread.thread_func]
  | cons x xs ih => simp [MessageThread.thread_func, ih]

theorem runOps_sends {α : Type} (items : List α) :
    ∀ (m : MessageThread α) (fresh : Nat),
      ((m.runOps fresh (items.map MTOp.sendOp)).1).q.q =
        m.q.q ++ items.map some ∧
      ((m.runOps fresh (items.map MTOp.sendOp)).1).threadActive =
        (m.threadActive || !items.isEmpty) := by
  induction items with
  | nil =>
      intro m fresh
      simp [MessageThread.runOps]
  | cons x xs ih =>
      intro m fresh
      have hsend :
          ((m.send fresh x).1).q.q = m.q.q ++ [some x] ∧
          ((m.send fresh x).1).threadActive = true := by
        by_cases h : m.threadActive = true <;>
          simp [MessageThread.send, MessageThread.start, h,
            ThreadMessageQueue.push]
      have ihx := ih (m.send fresh x).1 (fresh + 1)
      simp only [List.map, MessageThread.runOps, MessageThread.applyOp]
      rw [ihx.1, ihx.2, hsend.1, hsend.2]
      simp

/-- C1: items sent to a `MessageThread` before `end()` are all delivered: the
consumer loop `thread_func` invokes the callback once per pushed item, in
push order, never with the `NULL` sentinel (the delivered values are the
payloads of the non-sentinel entries), and the loop exits at the first
sentinel popped. Concretely: (first conjunct) on any queue contents whose
first sentinel follows exactly the pushed items, the loop delivers exactly
those items and stops there; (second conjunct) sending `items` to a fresh
`MessageThread` and then calling `end()` leaves queue contents on which the
loop delivers exactly `items` and exits with an empty queue. -/
theorem worker_delivers_all_in_order {α : Type} (callback fresh : Nat)
    (items : List α) (h : items ≠ []) :
    (∀ (its : List α) (rest : List (Option α)),
        MessageThread.thread_func (its.map some ++ none :: rest) =
          some (its, rest)) ∧
    MessageThread.thread_func
        (((((MessageThread.init α callback).runOps fresh
            (items.map MTOp.sendOp)).1).end_).q.q) = some (items, []) := by
  refine ⟨fun its rest => thread_func_first_sentinel its rest, ?_⟩
  have hq := runOps_sends items (MessageThread.init α callback) fresh
  have hact :
      (((MessageThread.init α callback).runOps fresh
        (items.map MTOp.sendOp)).1).threadActive = true := by
    rw [hq.2]
    simp [MessageThread.init]
    exact h
  have hqq :
      (((MessageThread.init α callback).runOps fresh
        (items.map MTOp.sendOp)).1).q.q = items.map some := by
    rw [hq.1]
    simp [MessageThread.init, ThreadMessageQueue.mk_]
  rw [MessageThread.end_, if_pos hact]
  simp only [ThreadMessageQueue.push, hqq]
  have := thread_func_first_sentinel items ([] : List (Option α))
  simpa using this

/-- Witness for C1: sending `[3, 1, 2]` and then `end()` makes the worker
loop deliver exactly `[3, 1, 2]` and exit with an empty queue. -/
theorem worker_delivers_all_in_order_witness :
    MessageThread.thread_func
        (((((MessageThread.init Nat 0).runOps 1
            ([3, 1, 2].map MTOp.sendOp)).1).end_).q.q) = some ([3, 1, 2], []) :=
  (worker_delivers_all_in_order 0 1 [3, 1, 2] (by simp)).2

theorem end_end {α : Type} (m : MessageThread α) : m.end_.end_ = m.end_ := by
  by_cases h : m.threadActive = true <;> simp [MessageThread.end_, h]

/-- C3: `end()` is idempotent. If the thread is active, `end()` pushes
exactly one `NULL` sentinel and clears `threadActive`; if it is not active
(never started, or `end()` already ran), it changes nothing; consequently
`k + 1` consecutive calls have the effect of one, and the queue gains at most
one sentinel in total. -/
theorem end_idempotent {α : Type} (m : MessageThread α)
    (h : m.threadActive = true) :
    m.end_ = { m with q := (m.q.push none).1, threadActive := false } ∧
    (∀ m2 : MessageThread α, m2.threadActive = false → m2.end_ = m2) ∧
    (∀ (k : Nat) (m2 : MessageThread α),
      MessageThread.end_^[k + 1] m2 = m2.end_) ∧
    (∀ m2 : MessageThread α,
      (m2.end_).q.q = m2.q.q ++ (if m2.threadActive then [none] else [])) := by
  refine ⟨by rw [MessageThread.end_, if_pos h], ?_, ?_, ?_⟩
  · intro m2 h2
    rw [MessageThread.end_, if_neg (by simp [h2])]
  · intro k
    induction k with
    | zero => intro m2; simp
    | succ n ih =>
        intro m2
        rw [Function.iterate_succ_apply, ih, end_end]
  · intro m2
    by_cases h2 : m2.threadActive = true
    · rw [MessageThread.end_, if_pos h2]
      simp [ThreadMessageQueue.push, h2]
    · simp only [Bool.not_eq_true] at h2
      rw [MessageThread.end_, if_neg (by simp [h2])]
      simp [h2]

/-- Witness for C3: on a concrete active `MessageThread`, calling `end()`
three times equals calling it once, and one sentinel was pushed. -/
theorem end_idempotent_witness :
    (MessageThread.end_^[3]
      ({ q := ⟨[some 5], 0, 0, false⟩, threadId := 1, threadActive := true,
         threadCreated := true, cb := 0, lowPrio := false } :
        MessageThread Nat)) =
      MessageThread.end_
        ({ q := ⟨[some 5], 0, 0, false⟩, threadId := 1, threadActive := true,
           threadCreated := true, cb := 0, lowPrio := false } :
          MessageThread Nat) ∧
    (MessageThread.end_
        ({ q := ⟨[some 5], 0, 0, false⟩, threadId := 1, threadActive := true,
           threadCreated := true, cb := 0, lowPrio := false } :
          MessageThread Nat)).q.q = [some 5, none] :=
  ⟨(end_idempotent
      ({ q := ⟨[some 5], 0, 0, false⟩, threadId := 1, threadActive := true,
         threadCreated := true, cb := 0, lowPrio := false } :
        MessageThread Nat) rfl).2.2.1 2 _,
   by
    have h5 := (end_idempotent
      ({ q := ⟨[some 5], 0, 0, false⟩, threadId := 1, threadActive := true,
         threadCreated := true, cb := 0, lowPrio := false } :
        MessageThread Nat) rfl).2.2.2
        ({ q := ⟨[some 5], 0, 0, false⟩, threadId := 1, threadActive := true,
           threadCreated := true, cb := 0, lowPrio := false } :
          MessageThread Nat)
    rw [h5]
    rfl⟩

/-- C5: `start()` is a no-op when already active; otherwise it joins the
previously created OS thread (if any) before creating the new one, and
afterwards both flags are true. Moreover every event trace reachable from a
fresh `MessageThread` through any sequence of public operations obeys the
single-thread discipline (`okEvents`): a thread is only ever created when no
unjoined thread exists, so at most one unjoined OS thread exists at any
point, and a create never precedes the join of its predecessor. -/
theorem start_single_thread_discipline (α : Type) :
    (∀ (m : MessageThread α) (newId : Nat), m.threadActive = true →
      m.start newId = (m, [])) ∧
    (∀ (m : MessageThread α) (newId : Nat), m.threadActive = false →
      (m.start newId).1.threadActive = true ∧
      (m.start newId).1.threadCreated = true ∧
      (m.start newId).2 =
        (if m.threadCreated then [ThreadEvent.tjoin] else []) ++
          [ThreadEvent.tcreate]) ∧
    (∀ (callback fresh : Nat) (ops : List (MTOp α)),
      okEvents false
        (((MessageThread.init α callback).runOps fresh ops)).2 = true) := by
  refine ⟨?_, ?_, ?_⟩
  · intro m newId h
    rw [MessageThread.start, if_pos h]
  · intro m newId h
    rw [MessageThread.start, if_neg (by simp [h])]
    simp
  · intro callback fresh ops
    have h := (runOps_okEvents ops (MessageThread.init α callback) fresh).1
    simpa [MessageThread.init] using h

/-- Witness for C5: on a concrete already-active instance `start` is a
no-op with no thread events; from a fresh instance the operation sequence
`start; end; start; end; send 9` produces the legal OS-thread event trace
create, join, create, join, create — never two creates without a join in
between. -/
theorem start_single_thread_discipline_witness :
    ({ q := ⟨[], 0, 0, false⟩, threadId := 2, threadActive := true,
       threadCreated := true, cb := 0, lowPrio := false } :
        MessageThread Nat).start 7 =
      ({ q := ⟨[], 0, 0, false⟩, threadId := 2, threadActive := true,
         threadCreated := true, cb := 0, lowPrio := false }, []) ∧
    okEvents false
      (((MessageThread.init Nat 0).runOps 1
        [MTOp.startOp, MTOp.stopOp, MTOp.startOp, MTOp.stopOp,
         MTOp.sendOp 9])).2 = true :=
  ⟨(start_single_thread_discipline Nat).1 _ 7 rfl,
   (start_single_thread_discipline Nat).2.2 0 1 _⟩

/-- C6: when a `MessageThread` is destroyed while active, the destructor's
first action is pushing the `NULL` sentinel (the effect of `end()`), and it
precedes the join; whenever an OS thread was ever created, the destructor
joins it (blocking the caller), so no OS thread outlives the object. -/
theorem destructor_ends_then_joins {α : Type} (m : MessageThread α)
    (h : m.threadActive = true) :
    m.destructorActions.head? = some DtorAction.pushSentinel ∧
    (m.threadCreated = true →
      m.destructorActions =
        [DtorAction.pushSentinel, DtorAction.joinThread]) ∧
    (∀ m2 : MessageThread α, m2.threadCreated = true →
      m2.destructorActions.getLast? = some DtorAction.joinThread) ∧
    (∀ m2 : MessageThread α, m2.threadCreated = false →
      DtorAction.joinThread ∉ m2.destructorActions) := by
  refine ⟨?_, ?_, ?_, ?_⟩
  · simp [MessageThread.destructorActions, h]
  · intro hc
    simp [MessageThread.destructorActions, h, hc]
  · intro m2 hc
    by_cases h2 : m2.threadActive = true <;>
      simp [MessageThread.destructorActions, h2, hc]
  · intro m2 hc
    by_cases h2 : m2.threadActive = true <;>
      simp [MessageThread.destructorActions, h2, hc]

/-- Witness for C6: a concrete active, created `MessageThread` is destroyed
by pushing the sentinel and then joining, in that order. -/
theorem destructor_ends_then_joins_witness :
    ({ q := ⟨[], 0, 0, false⟩, threadId := 1, threadActive := true,
       threadCreated := true, cb := 0, lowPrio := false } :
        MessageThread Nat).destructorActions =
      [DtorAction.pushSentinel, DtorAction.joinThread] :=
  (destructor_ends_then_joins
    ({ q := ⟨[], 0, 0, false⟩, threadId := 1, threadActive := true,
       threadCreated := true, cb := 0, lowPrio := false } :
      MessageThread Nat) rfl).2.1 rfl

/-- C10: the queue introspection of `MessageThread` counts the shutdown
sentinel: right after `end()` on an active instance whose queue holds no
application item (every queued entry is the sentinel — in particular an
empty queue), `size()` is at least 1 and `empty()` is false. -/
theorem size_counts_sentinel {α : Type} (m : MessageThread α)
    (h : m.threadActive = true) (hq : ∀ x ∈ m.q.q, x = none) :
    1 ≤ (m.end_).size ∧ (m.end_).empty = false := by
  rw [MessageThread.end_, if_pos h]
  constructor
  · simp [MessageThread.size, ThreadMessageQueue.size,
      ThreadMessageQueue.push]
  · simp [MessageThread.empty, ThreadMessageQueue.empty,
      ThreadMessageQueue.push]

/-- Witness for C10: after `end()` on a concrete active instance with an
empty queue, `size()` is 1 and `empty()` is false, though zero application
items remain. -/
theorem size_counts_sentinel_witness :
    1 ≤ (({ q := ⟨[], 0, 0, false⟩, threadId := 1, threadActive := true,
            threadCreated := true, cb := 0, lowPrio := false } :
          MessageThread Nat).end_).size ∧
    (({ q := ⟨[], 0, 0, false⟩, threadId := 1, threadActive := true,
        threadCreated := true, cb := 0, lowPrio := false } :
          MessageThread Nat).end_).empty = false :=
  size_counts_sentinel
    ({ q := ⟨[], 0, 0, false⟩, threadId := 1, threadActive := true,
       threadCreated := true, cb := 0, lowPrio := false } :
      MessageThread Nat) rfl (by intro x hx; simp at hx)

/-- C4: moving a `ThreadMessageQueue` or a `MessageThread` transfers the
queue contents, the mutex/condvar identity, and the thread handle and
lifecycle flags to the destination, and leaves the source inert: the
moved-from queue's destructor destroys no mutex or condition variable
(`skipDestructor` is set), and the moved-from `MessageThread`'s destructor
pushes no sentinel and joins no thread (both flags cleared) — so each
resource is released exactly once, by the destination. -/
theorem move_transfers_ownership_once {T α : Type}
    (d0 s0 : ThreadMessageQueue T) (md ms : MessageThread α) :
    ((ThreadMessageQueue.move d0 s0).1.q = s0.q ∧
     (ThreadMessageQueue.move d0 s0).1.mutexId = s0.mutexId ∧
     (ThreadMessageQueue.move d0 s0).1.condId = s0.condId ∧
     (ThreadMessageQueue.move d0 s0).1.destructorDestroys = true ∧
     (ThreadMessageQueue.move d0 s0).2.destructorDestroys = false) ∧
    ((MessageThread.move md ms).1.q.q = ms.q.q ∧
     (MessageThread.move md ms).1.q.mutexId = ms.q.mutexId ∧
     (MessageThread.move md ms).1.q.condId = ms.q.condId ∧
     (MessageThread.move md ms).1.threadId = ms.threadId ∧
     (MessageThread.move md ms).1.threadActive = ms.threadActive ∧
     (MessageThread.move md ms).1.threadCreated = ms.threadCreated ∧
     (MessageThread.move md ms).1.cb = ms.cb ∧
     (MessageThread.move md ms).2.threadActive = false ∧
     (MessageThread.move md ms).2.threadCreated = false ∧
     (MessageThread.move md ms).2.destructorActions = [] ∧
     (MessageThread.move md ms).2.q.destructorDestroys = false ∧
     (MessageThread.move md ms).1.q.destructorDestroys = true) := by
  refine ⟨⟨rfl, rfl, rfl, rfl, rfl⟩,
    ⟨rfl, rfl, rfl, rfl, rfl, rfl, rfl, rfl, rfl, ?_, rfl, rfl⟩⟩
  simp [MessageThread.destructorActions, MessageThread.move]

/-- C9: neither `end()` nor `start()` ever clears the queue: `start` does
not touch the queue at all, `end` only appends the sentinel; hence
non-sentinel items sitting in the queue behind the first sentinel survive
the first worker's run (which stops at that sentinel) and are delivered by
the next worker run. -/
theorem queue_survives_restart {α : Type} (m : MessageThread α)
    (newId : Nat) (pre post : List α) (rest : List (Option α)) :
    ((m.start newId).1.q = m.q) ∧
    ((m.end_).q.q = m.q.q ++ (if m.threadActive then [none] else [])) ∧
    (MessageThread.thread_func
        (pre.map some ++ none :: (post.map some ++ none :: rest)) =
      some (pre, post.map some ++ none :: rest)) ∧
    (MessageThread.thread_func (post.map some ++ none :: rest) =
      some (post, rest)) := by
  refine ⟨?_, ?_, thread_func_first_sentinel pre _,
    thread_func_first_sentinel post rest⟩
  · by_cases h : m.threadActive = true <;> simp [MessageThread.start, h]
  · by_cases h : m.threadActive = true <;>
      simp [MessageThread.end_, h, ThreadMessageQueue.push]

/-- Model of `ThreadNotifyQueue<P>` (threadqueue.h:151-191), the spec's
LoopNotifyBridge: an internal `ThreadMessageQueue<void*>` plus a libuv async
handle bound to the host loop and a bound callback on the owning object
(both modelled as identity tags; the notification payloads as `T`). -/
structure ThreadNotifyQueue (T : Type) where
  q : ThreadMessageQueue T
  asyncId : Nat
  cb : Nat
  deriving Repr, DecidableEq

namespace ThreadNotifyQueue

/-- `notify` (threadqueue.h:172-175): push the item onto the internal queue,
then `uv_async_send` — request one wakeup of the host loop. The second
component counts wakeup requests issued by the call (always 1; libuv
coalesces pending requests into a single wakeup). -/
def notify (s : ThreadMessageQueue T) (item : T) :
    ThreadMessageQueue T × Nat :=
  ((s.push item).1, 1)

/-- `notified` (threadqueue.h:158-163), the `uv_async_t` wakeup handler run
on the loop's own thread: `while(self->q.trypop(&notification))` invoke the
bound callback with the popped notification. Returns the callback
invocations in order together with the queue state when `trypop` reports
absent and the loop exits. -/
def notified (s : ThreadMessageQueue T) : List T × ThreadMessageQueue T :=
  match h : s.trypop with
  | (none, s2) => ([], s2)
  | (some x, s2) =>
      have hlt : s2.q.length < s.q.length := by
        cases hq : s.q with
        | nil => simp [ThreadMessageQueue.trypop, hq] at h
        | cons a r =>
            simp [ThreadMessageQueue.trypop, hq] at h
            rw [← h.2]
            simp [hq]
      let r := notified s2
      (x :: r.1, r.2)
termination_by s.q.length

end ThreadNotifyQueue

theorem notified_drains_list {T : Type} (l : List T) :
    ∀ mId cId sd,
      ThreadNotifyQueue.notified (⟨l, mId, cId, sd⟩ : ThreadMessageQueue T) =
        (l, ⟨[], mId, cId, sd⟩) := by
  induction l with
  | nil =>
      intro mId cId sd
      rw [ThreadNotifyQueue.notified]
      simp [ThreadMessageQueue.trypop]
  | cons x r ih =>
      intro mId cId sd
      rw [ThreadNotifyQueue.notified]
      simp [ThreadMessageQueue.trypop, ih]

theorem notify_foldl {T : Type} (items : List T) :
    ∀ s : ThreadMessageQueue T,
      (items.foldl (fun acc x => (ThreadNotifyQueue.notify acc x).1) s).q =
        s.q ++ items ∧
      (items.foldl (fun acc x => (ThreadNotifyQueue.notify acc x).1)
          s).mutexId = s.mutexId ∧
      (items.foldl (fun acc x => (ThreadNotifyQueue.notify acc x).1)
          s).condId = s.condId ∧
      (items.foldl (fun acc x => (ThreadNotifyQueue.notify acc x).1)
          s).skipDestructor = s.skipDestructor := by
  induction items with
  | nil => intro s; simp
  | cons x rest ih =>
      intro s
      simp only [List.foldl]
      have h := ih ((ThreadNotifyQueue.notify s x).1)
      refine ⟨?_, ?_, ?_, ?_⟩
      · rw [h.1]; simp [ThreadNotifyQueue.notify, ThreadMessageQueue.push]
      · rw [h.2.1]; simp [ThreadNotifyQueue.notify, ThreadMessageQueue.push]
      · rw [h.2.2.1]
        simp [ThreadNotifyQueue.notify, ThreadMessageQueue.push]
      · rw [h.2.2.2]
        simp [ThreadNotifyQueue.notify, ThreadMessageQueue.push]

/-- C8: one run of the wakeup handler `notified` on the loop thread drains
the internal queue with non-blocking `trypop` until absent: it invokes the
bound callback once per queued item, in queue (FIFO) order, and leaves the
queue empty. In particular, after `K` `notify` calls deposited `items` at
the tail of the internal queue, the next handler run delivers exactly those
`K` items in the order of the `notify` calls. -/
theorem notified_drains_queue {T : Type} (s : ThreadMessageQueue T)
    (items : List T) :
    ThreadNotifyQueue.notified s = (s.q, { s with q := [] }) ∧
    ThreadNotifyQueue.notified
        (items.foldl (fun acc x => (ThreadNotifyQueue.notify acc x).1)
          (ThreadMessageQueue.mk_ s.mutexId s.condId)) =
      (items, ThreadMessageQueue.mk_ s.mutexId s.condId) := by
  constructor
  · cases s with
    | mk l mId cId sd => exact notified_drains_list l mId cId sd
  · have h := notify_foldl items (ThreadMessageQueue.mk_ s.mutexId s.condId)
    have hs : (items.foldl (fun acc x => (ThreadNotifyQueue.notify acc x).1)
        (ThreadMessageQueue.mk_ s.mutexId s.condId)) =
        ⟨items, s.mutexId, s.condId, false⟩ := by
      cases hfold : (items.foldl
          (fun acc x => (ThreadNotifyQueue.notify acc x).1)
          (ThreadMessageQueue.mk_ s.mutexId s.condId)) with
      | mk l2 m2 c2 sd2 =>
          rw [hfold] at h
          simp [ThreadMessageQueue.mk_] at h
          simp [h]
    rw [hs]
    have := notified_drains_list items s.mutexId s.condId false
    simpa [ThreadMessageQueue.mk_] using this
